import Mathlib

/-!
Shallow embedding of the volume-lifecycle and secret-management subsystem
of `internal/luks/luks.go` (plus `scripts/tpm-luks-keyscript.sh`).

External processes (cryptsetup, mount/umount, lsblk, blkid, tpm2 tools,
crypto/rand) are modelled by an `Env` record of result oracles; functions
that perform side effects additionally return a trace of `Event`s, one per
attempted external action, in the order the Go code attempts them.
Persisted configuration artifacts (`/etc/fstab`, `/etc/crypttab`) are
modelled as lists of lines in `PState`.
-/

/-- Bytes are modelled as natural numbers; Go `[]byte` becomes `List Byte`. -/
abbrev Byte := Nat

/-- The `LUKS` configuration struct from luks.go. -/
structure LUKS where
  volumePath : String
  mapperName : String
  mountPoint : String
  passwordLength : Int
  size : Int
  useTPM : Bool
  user : String
  group : String
  password : List Byte
deriving Repr, DecidableEq

/-- Fixed NV index constant from luks.go. -/
def DefaultNVIndex : String := "0x1500016"

/-- One attempted external action, recorded in program traces. -/
inductive Event where
  | createSparse (path : String) (sizeMB : Int)
  | tpmUndefine (idx : String)
  | tpmDefine (idx : String) (size : Nat)
  | tpmWrite (idx : String) (pw : List Byte)
  | createTemp (name : String)
  | fileWrite (name : String) (data : List Byte)
  | cryptFormat (args : List String)
  | fileRemove (name : String)
  | umountNormal (mp : String)
  | umountLazy (mp : String)
  | cryptClose (name : String)
  | removeDirAll (path : String)
  | removeFile (path : String)
  | mkdirAll (path : String)
  | mountDev (dev : String) (mp : String)
  | chownCmd (owner : String) (mp : String)
deriving Repr, DecidableEq

/-- Results of the external collaborators invoked by luks.go. Each field
gives the outcome the corresponding external command would report. -/
structure Env where
  /-- checkTPM2Availability: stat of /dev/tpmrm0. -/
  tpmCheck : Except String Bool
  /-- getRandomBytesFromTPM2: tpm2_getrandom output, already hex-decoded. -/
  tpmRandom : Nat → Except String (List Byte)
  /-- crypto/rand.Read filling a buffer of the given size. -/
  cryptoRand : Nat → Except String (List Byte)
  /-- createSparseFile. -/
  createSparse : String → Int → Except String Unit
  /-- tpm2_nvundefine at an index. -/
  tpmUndefine : String → Except String Unit
  /-- tpm2_nvdefine at an index with a size. -/
  tpmDefine : String → Nat → Except String Unit
  /-- tpm2_nvwrite at an index (input piped on stdin). -/
  tpmWrite : String → Except String Unit
  /-- os.CreateTemp: the chosen temporary file name. -/
  createTemp : Except String String
  /-- tmpFile.Write. -/
  fileWrite : String → List Byte → Except String Unit
  /-- tmpFile.Close. -/
  closeTemp : Except String Unit
  /-- cryptsetup luksFormat with the given argument list. -/
  cryptFormat : List String → Except String Unit
  /-- umount (normal). -/
  umountN : String → Except String Unit
  /-- umount -l (lazy). -/
  umountL : String → Except String Unit
  /-- cryptsetup luksClose. -/
  cryptClose : String → Except String Unit
  /-- os.RemoveAll. -/
  removeDirAll : String → Except String Unit
  /-- os.Remove. -/
  removeFile : String → Except String Unit
  /-- os.MkdirAll. -/
  mkdirAll : String → Except String Unit
  /-- mount device at mountpoint. -/
  mountDev : String → String → Except String Unit
  /-- chown user:group mountpoint. -/
  chownCmd : String → String → Except String Unit
  /-- lsblk -o MOUNTPOINT --noheadings of a device: raw output. -/
  lsblk : String → Except String String
  /-- blkid -p -s UUID -o value of a device: raw output. -/
  blkid : String → Except String String
  /-- appendToFile on /etc/crypttab (file open / write outcome). -/
  crypttabAppend : Except String Unit
  /-- appendToFile on /etc/fstab (file open / write outcome). -/
  fstabAppend : Except String Unit

/- ### String helpers (models of Go strings functions, kernel-evaluable) -/

/-- Model of a Go byte-wise "starts with" on character lists. -/
def charsStartWith : List Char → List Char → Bool
  | [], _ => true
  | _ :: _, [] => false
  | a :: as, b :: bs => a == b && charsStartWith as bs

/-- Model of Go strings.Contains on character lists: does `token` occur
as a contiguous sublist? -/
def charsContain (token : List Char) : List Char → Bool
  | [] => charsStartWith token []
  | b :: bs => charsStartWith token (b :: bs) || charsContain token bs

/-- Model of Go `strings.Contains s token`. -/
def stringContains (s token : String) : Bool :=
  charsContain token.toList s.toList

/-- ASCII whitespace, the subset of Go unicode.IsSpace relevant here. -/
def isSpaceChar (c : Char) : Bool :=
  c == ' ' || c == '\t' || c == '\n' || c == '\r'

/-- Model of Go strings.TrimSpace on character lists. -/
def trimChars (cs : List Char) : List Char :=
  ((cs.dropWhile isSpaceChar).reverse.dropWhile isSpaceChar).reverse

/-- Model of Go `strings.TrimSpace`. -/
def trimSpace (s : String) : String := ⟨trimChars s.toList⟩

/- ### Secret generation (GenerateLUKSKey) -/

/-- GenerateLUKSKey from luks.go: reject lengths of at most 8; otherwise
try the TPM random source when the TPM device is present, falling back to
crypto/rand on TPM check error, TPM absence, or TPM read failure. -/
def generateLUKSKey (env : Env) (length : Int) : Except String (List Byte) :=
  if length ≤ 8 then .error "key length must be greater than 0"
  else
    let tpmTry : Option (List Byte) :=
      match env.tpmCheck with
      | .error _ => none
      | .ok avail =>
        if avail then
          match env.tpmRandom length.toNat with
          | .ok key => some key
          | .error _ => none
        else none
    match tpmTry with
    | some key => .ok key
    | none =>
      match env.cryptoRand length.toNat with
      | .ok key => .ok key
      | .error e => .error ("failed to generate random key using crypto/rand: " ++ e)

/- ### Unmount (UnmountLUKSVolume) -/

/-- UnmountLUKSVolume from luks.go: normal umount; on failure retry once
with lazy umount; only the second failure is reported. -/
def unmountLUKSVolume (env : Env) (mountPoint : String) :
    List Event × Except String Unit :=
  match env.umountN mountPoint with
  | .ok _ => ([.umountNormal mountPoint], .ok ())
  | .error _ =>
    match env.umountL mountPoint with
    | .ok _ => ([.umountNormal mountPoint, .umountLazy mountPoint], .ok ())
    | .error e2 =>
      ([.umountNormal mountPoint, .umountLazy mountPoint],
        .error ("failed to unmount LUKS volume: " ++ e2))

/- ### TPM secret escrow (storePasswordInTPM / removePasswordFromTPM) -/

/-- storePasswordInTPM from luks.go: validate the secret length (1..64),
then tpm2_nvdefine an NV index sized to the secret, then tpm2_nvwrite the
secret with its bytes piped on stdin. -/
def storePasswordInTPM (env : Env) (password : List Byte) (nvIndex : String) :
    List Event × Except String Unit :=
  if password.length < 1 ∨ password.length > 64 then
    ([], .error "password length must be between 1 and 64 bytes")
  else
    match env.tpmDefine nvIndex password.length with
    | .error e =>
      ([.tpmDefine nvIndex password.length], .error ("tpm2_nvdefine error: " ++ e))
    | .ok _ =>
      match env.tpmWrite nvIndex with
      | .error e =>
        ([.tpmDefine nvIndex password.length, .tpmWrite nvIndex password],
          .error ("tpm2_nvwrite error: " ++ e))
      | .ok _ =>
        ([.tpmDefine nvIndex password.length, .tpmWrite nvIndex password], .ok ())

/-- removePasswordFromTPM from luks.go: tpm2_nvundefine at the index. -/
def removePasswordFromTPM (env : Env) (nvIndex : String) :
    List Event × Except String Unit :=
  ([.tpmUndefine nvIndex],
    match env.tpmUndefine nvIndex with
    | .error e => .error ("tpm2_nvundefine error: " ++ e)
    | .ok _ => .ok ())

/- ### Container formatting (luksFormat) -/

/-- Argument list of the cryptsetup luksFormat invocation in luks.go. It
mentions the temporary key-file name and the volume path, and does not
take the secret itself. -/
def luksFormatArgs (keyFileName filePath : String) : List String :=
  ["luksFormat", "--type=luks2", "--batch-mode", "--pbkdf-memory=2097152",
   "--pbkdf-parallel=8", "--cipher=aes-xts-plain64",
   "--key-file", keyFileName, filePath]

/-- luksFormat from luks.go: create a temporary file, write the secret
bytes into it, close it, run cryptsetup luksFormat with `--key-file`
naming that file, and (deferred) remove the temporary file on every path
after its creation. -/
def luksFormat (env : Env) (filePath : String) (password : List Byte) :
    List Event × Except String Unit :=
  match env.createTemp with
  | .error e => ([], .error ("failed to create temporary file: " ++ e))
  | .ok name =>
    match env.fileWrite name password with
    | .error e =>
      ([.createTemp name, .fileWrite name password, .fileRemove name],
        .error ("failed to write password to temporary file: " ++ e))
    | .ok _ =>
      match env.closeTemp with
      | .error e =>
        ([.createTemp name, .fileWrite name password, .fileRemove name],
          .error ("failed to close temporary file: " ++ e))
      | .ok _ =>
        let args := luksFormatArgs name filePath
        match env.cryptFormat args with
        | .error e =>
          ([.createTemp name, .fileWrite name password,
            .cryptFormat args, .fileRemove name],
            .error ("failed to format LUKS volume: " ++ e))
        | .ok _ =>
          ([.createTemp name, .fileWrite name password,
            .cryptFormat args, .fileRemove name], .ok ())

/- ### Volume creation (CreateLUKSVolume) -/

/-- CreateLUKSVolume from luks.go: validate the size bound, create the
sparse backing file, and when hardware escrow is requested first remove
any existing TPM entry at the fixed index (failure only logged) and store
the secret in the TPM before formatting; finally run luksFormat. -/
def createLUKSVolume (env : Env) (filePath : String) (password : List Byte)
    (sizeMB : Int) (useTPM : Bool) : List Event × Except String Unit :=
  if sizeMB < 1 ∨ sizeMB > 64 then
    ([], .error "size must be between 1MB and 10MB")
  else
    match env.createSparse filePath sizeMB with
    | .error e =>
      ([.createSparse filePath sizeMB],
        .error ("failed to create sparse file: " ++ e))
    | .ok _ =>
      let ev0 := [Event.createSparse filePath sizeMB]
      if useTPM then
        let (evR, _rR) := removePasswordFromTPM env DefaultNVIndex
        match storePasswordInTPM env password DefaultNVIndex with
        | (evS, .error e) =>
          (ev0 ++ evR ++ evS, .error ("failed to store password in TPM: " ++ e))
        | (evS, .ok _) =>
          let (evF, rF) := luksFormat env filePath password
          (ev0 ++ evR ++ evS ++ evF,
            match rF with
            | .error e => .error ("failed to format LUKS volume: " ++ e)
            | .ok _ => .ok ())
      else
        let (evF, rF) := luksFormat env filePath password
        (ev0 ++ evF,
          match rF with
          | .error e => .error ("failed to format LUKS volume: " ++ e)
          | .ok _ => .ok ())

/- ### Mounting (MountLUKSVolume) and teardown (RemoveLUKSVolume) -/

/-- MountLUKSVolume from luks.go: create the mount-point directory, mount
the mapped device, and only then validate user/group (both mandatory)
before running chown. -/
def mountLUKSVolume (env : Env) (cfg : LUKS) : List Event × Except String Unit :=
  let devicePath := "/dev/mapper/" ++ cfg.mapperName
  match env.mkdirAll cfg.mountPoint with
  | .error e =>
    ([.mkdirAll cfg.mountPoint], .error ("failed to create mount point: " ++ e))
  | .ok _ =>
    match env.mountDev devicePath cfg.mountPoint with
    | .error e =>
      ([.mkdirAll cfg.mountPoint, .mountDev devicePath cfg.mountPoint],
        .error ("failed to mount LUKS volume: " ++ e))
    | .ok _ =>
      if cfg.user = "" ∨ cfg.group = "" then
        ([.mkdirAll cfg.mountPoint, .mountDev devicePath cfg.mountPoint],
          .error "user and group must be specified")
      else
        let owner := cfg.user ++ ":" ++ cfg.group
        match env.chownCmd owner cfg.mountPoint with
        | .error e =>
          ([.mkdirAll cfg.mountPoint, .mountDev devicePath cfg.mountPoint,
            .chownCmd owner cfg.mountPoint],
            .error ("failed to change ownership of mount point: " ++ e))
        | .ok _ =>
          ([.mkdirAll cfg.mountPoint, .mountDev devicePath cfg.mountPoint,
            .chownCmd owner cfg.mountPoint], .ok ())

/-- RemoveLUKSVolume from luks.go: unmount (with the lazy retry), close
the mapping, remove the mount directory, remove the backing file, and,
only when hardware escrow is configured, remove the TPM entry. Every
failure is logged (its result bound and discarded) and never stops the
following steps; the function always returns success. -/
def removeLUKSVolume (env : Env) (cfg : LUKS) : List Event × Except String Unit :=
  let (t1, _r1) := unmountLUKSVolume env cfg.mountPoint
  let _r2 := env.cryptClose cfg.mapperName
  let t2 := t1 ++ [Event.cryptClose cfg.mapperName]
  let _r3 := env.removeDirAll cfg.mountPoint
  let t3 := t2 ++ [Event.removeDirAll cfg.mountPoint]
  let _r4 := env.removeFile cfg.volumePath
  let t4 := t3 ++ [Event.removeFile cfg.volumePath]
  if cfg.useTPM then
    let (tR, _r5) := removePasswordFromTPM env DefaultNVIndex
    (t4 ++ tR, .ok ())
  else
    (t4, .ok ())

/- ### Persisted configuration artifacts (/etc/fstab, /etc/crypttab) -/

/-- Splits character content into lines at newline characters; a final
segment not terminated by a newline still forms a line, and a trailing
newline does not create an empty extra line (matching how line-oriented
readers such as bufio.Scanner view the content appended by luks.go). -/
def splitOnNewlines (acc : List Char) : List Char → List (List Char)
  | [] => if acc.isEmpty then [] else [acc.reverse]
  | c :: cs =>
    if c == '\n' then acc.reverse :: splitOnNewlines [] cs
    else splitOnNewlines (c :: acc) cs

/-- Lines of a piece of appended content. -/
def contentLines (s : String) : List String :=
  (splitOnNewlines [] s.toList).map (fun cs => ⟨cs⟩)

/-- appendToFile from luks.go, on the list-of-lines view of a file. -/
def appendToFile (file : List String) (content : String) : List String :=
  file ++ contentLines content

/-- The two persisted boot-configuration artifacts, as lists of lines. -/
structure PState where
  fstab : List String
  crypttab : List String
deriving Repr, DecidableEq

/-- The /etc/crypttab entry built by AddPersistentMount: in hardware-escrow
mode it references the keyscript (with no further fields); in file mode it
references the keyfile path. The Go Sprintf ends with a newline. -/
def crypttabEntry (cfg : LUKS) (keyFile : String) : String :=
  if cfg.useTPM then
    cfg.mapperName ++ " " ++ cfg.volumePath ++
      " none luks,keyscript=/usr/local/bin/tpm-luks-keyscript.sh\n"
  else
    cfg.mapperName ++ " " ++ cfg.volumePath ++ " " ++ keyFile ++ " luks\n"

/-- The /etc/fstab entry built by AddPersistentMount: keyed by filesystem
UUID, with a systemd ordering dependency on the unlock service. -/
def fstabEntry (uuid : String) (cfg : LUKS) : String :=
  "UUID=" ++ uuid ++ " " ++ cfg.mountPoint ++
    " ext4 defaults,nofail,x-systemd.requires=cryptsetup@" ++
    cfg.mapperName ++ ".service 0 2\n"

/-- isLUKSMounted from luks.go: lsblk on the mapped device; mounted when
the trimmed output equals the configured mount point. -/
def isLUKSMounted (env : Env) (cfg : LUKS) : Except String Bool :=
  match env.lsblk ("/dev/mapper/" ++ cfg.mapperName) with
  | .error e => .error ("failed to list mounted devices: " ++ e)
  | .ok out => .ok (trimSpace out = cfg.mountPoint)

/-- getFilesystemUUID from luks.go: blkid on the device, trimmed; an empty
result is an error. -/
def getFilesystemUUID (env : Env) (devicePath : String) : Except String String :=
  match env.blkid devicePath with
  | .error e => .error ("blkid command failed: " ++ e)
  | .ok out =>
    let uuid := trimSpace out
    if uuid = "" then .error ("no UUID found for device: " ++ devicePath)
    else .ok uuid

/-- AddPersistentMount from luks.go: require the volume to be mounted
(live mount-state check), then append the crypttab entry, resolve the
filesystem UUID from the live device, and append the fstab entry. -/
def addPersistentMount (env : Env) (cfg : LUKS) (keyFile : String)
    (st : PState) : PState × Except String Unit :=
  match isLUKSMounted env cfg with
  | .error e =>
    (st, .error ("failed to check if LUKS volume is mounted: " ++ e))
  | .ok isMounted =>
    if !isMounted then (st, .error "LUKS volume is not mounted")
    else
      let entry := crypttabEntry cfg keyFile
      match env.crypttabAppend with
      | .error e => (st, .error ("failed to update /etc/crypttab: " ++ e))
      | .ok _ =>
        let st1 : PState := { st with crypttab := appendToFile st.crypttab entry }
        match getFilesystemUUID env ("/dev/mapper/" ++ cfg.mapperName) with
        | .error e =>
          (st1, .error ("failed to retrieve filesystem UUID: " ++ e))
        | .ok uuid =>
          let fe := fstabEntry uuid cfg
          match env.fstabAppend with
          | .error e => (st1, .error ("failed to update /etc/fstab: " ++ e))
          | .ok _ =>
            ({ st1 with fstab := appendToFile st1.fstab fe }, .ok ())

/-- removeLineFromFile from luks.go, on the list-of-lines view: copy to a
temporary file every line that does not contain the token as a substring,
then rename the temporary file over the original. -/
def removeLineFromFile (file : List String) (token : String) : List String :=
  file.filter (fun line => !(stringContains line token))

/-- RemovePersistentMount from luks.go: require the volume to be not
mounted, then drop from /etc/fstab every line containing the mount point
and from /etc/crypttab every line containing the mapper name. -/
def removePersistentMount (env : Env) (cfg : LUKS) (st : PState) :
    PState × Except String Unit :=
  match isLUKSMounted env cfg with
  | .error e =>
    (st, .error ("failed to check if LUKS volume is mounted: " ++ e))
  | .ok isMounted =>
    if isMounted then
      (st, .error "LUKS volume is mounted, please unmount first")
    else
      let st1 : PState := { st with fstab := removeLineFromFile st.fstab cfg.mountPoint }
      let st2 : PState := { st1 with crypttab := removeLineFromFile st1.crypttab cfg.mapperName }
      (st2, .ok ())

/- ### Boot-time keyscript (scripts/tpm-luks-keyscript.sh) -/

/-- Argument validation of tpm-luks-keyscript.sh: the script exits with a
usage error unless invoked with exactly two arguments (NV_INDEX and SIZE). -/
def keyscriptArgCountOk (args : List String) : Bool :=
  args.length == 2

/- ### Trace predicates -/

/-- Holds when every container-format invocation in the trace is preceded
by a TPM write of the given secret: walking the list, a `cryptFormat`
found before any matching `tpmWrite` falsifies the predicate, and once a
matching `tpmWrite` is seen the rest of the trace is accepted. -/
def storePrecedesFormat (pw : List Byte) : List Event → Bool
  | [] => true
  | Event.cryptFormat _ :: _ => false
  | Event.tpmWrite _ pw2 :: rest => pw2 == pw || storePrecedesFormat pw rest
  | _ :: rest => storePrecedesFormat pw rest

/- ### Concrete environments and descriptors used by witnesses -/

/-- An environment where every external operation succeeds. The TPM device
is absent for random generation, so the key comes from crypto/rand (all
zeros here); lsblk reports the volume mounted at /mnt/data. -/
def envOk : Env where
  tpmCheck := .ok false
  tpmRandom := fun n => .ok (List.replicate n 0)
  cryptoRand := fun n => .ok (List.replicate n 0)
  createSparse := fun _ _ => .ok ()
  tpmUndefine := fun _ => .ok ()
  tpmDefine := fun _ _ => .ok ()
  tpmWrite := fun _ => .ok ()
  createTemp := .ok "/tmp/luks-password-123456"
  fileWrite := fun _ _ => .ok ()
  closeTemp := .ok ()
  cryptFormat := fun _ => .ok ()
  umountN := fun _ => .ok ()
  umountL := fun _ => .ok ()
  cryptClose := fun _ => .ok ()
  removeDirAll := fun _ => .ok ()
  removeFile := fun _ => .ok ()
  mkdirAll := fun _ => .ok ()
  mountDev := fun _ _ => .ok ()
  chownCmd := fun _ _ => .ok ()
  lsblk := fun _ => .ok "/mnt/data\n"
  blkid := fun _ => .ok "1234-abcd\n"
  crypttabAppend := .ok ()
  fstabAppend := .ok ()

/-- Like `envOk` but lsblk reports no mount point for the device. -/
def envNotMounted : Env :=
  { envOk with lsblk := fun _ => .ok "\n" }

/-- Like `envOk` but the normal umount fails (busy mount point). -/
def envBusy : Env :=
  { envOk with umountN := fun _ => .error "device is busy" }

/-- A hardware-escrowed descriptor used as concrete input. -/
def cfgEx : LUKS where
  volumePath := "/data/luks.img"
  mapperName := "secure_volume"
  mountPoint := "/mnt/data"
  passwordLength := 32
  size := 10
  useTPM := true
  user := "root"
  group := "root"
  password := [1, 2, 3]

/- ### Claim theorems -/

/-- C1 (counterexample): the claim fails on the code at two concrete
lengths. At L = 5, which lies in (0,64], GenerateLUKSKey returns the
invalid-length error instead of a 5-byte secret; at L = 100, which is
above 64, it returns a 100-byte secret instead of an error. -/
theorem C1_counterexample :
    generateLUKSKey envOk 5 = .error "key length must be greater than 0" ∧
    generateLUKSKey envOk 100 = .ok (List.replicate 100 0) ∧
    (List.replicate 100 (0 : Byte)).length = 100 :=
  ⟨by rfl, by rfl, by simp⟩

/-- C1 (amended): GenerateLUKSKey returns the invalid-length error exactly
when the requested length L is at most 8 (despite the error text saying
"greater than 0"), and for L > 8 every secret it returns has exactly L
bytes, provided the random sources return the number of bytes they were
asked for; there is no upper bound of 64 in this function. -/
theorem C1_generate_length (env : Env) (L : Int)
    (htpm : ∀ n bs, env.tpmRandom n = .ok bs → bs.length = n)
    (hrand : ∀ n bs, env.cryptoRand n = .ok bs → bs.length = n) :
    (L ≤ 8 → generateLUKSKey env L = .error "key length must be greater than 0") ∧
    (8 < L → ∀ key, generateLUKSKey env L = .ok key → key.length = L.toNat) := by
  constructor
  · intro h
    simp [generateLUKSKey, h]
  · intro h key hk
    have hnot : ¬ L ≤ 8 := not_le.mpr h
    simp only [generateLUKSKey, if_neg hnot] at hk
    cases hc : env.tpmCheck with
    | error e =>
      rw [hc] at hk
      simp only at hk
      cases hr : env.cryptoRand L.toNat with
      | ok bs =>
        rw [hr] at hk
        simp only [Except.ok.injEq] at hk
        subst hk
        exact hrand _ _ hr
      | error e2 =>
        rw [hr] at hk
        simp at hk
    | ok avail =>
      rw [hc] at hk
      cases avail with
      | false =>
        simp only [Bool.false_eq_true, if_false] at hk
        cases hr : env.cryptoRand L.toNat with
        | ok bs =>
          rw [hr] at hk
          simp only [Except.ok.injEq] at hk
          subst hk
          exact hrand _ _ hr
        | error e2 =>
          rw [hr] at hk
          simp at hk
      | true =>
        simp only [if_true] at hk
        cases ht : env.tpmRandom L.toNat with
        | ok bs =>
          rw [ht] at hk
          simp only [Except.ok.injEq] at hk
          subst hk
          exact htpm _ _ ht
        | error e2 =>
          rw [ht] at hk
          simp only at hk
          cases hr : env.cryptoRand L.toNat with
          | ok bs =>
            rw [hr] at hk
            simp only [Except.ok.injEq] at hk
            subst hk
            exact hrand _ _ hr
          | error e3 =>
            rw [hr] at hk
            simp at hk

/-- C1 (witness): the amended theorem applied at L = 3 (rejected) and at
L = 100 (accepted with 100 bytes) in the all-zero random environment. -/
theorem C1_generate_length_witness :
    generateLUKSKey envOk 3 = .error "key length must be greater than 0" ∧
    (List.replicate 100 (0 : Byte)).length = (100 : Int).toNat :=
  ⟨(C1_generate_length envOk 3
      (fun n bs h => by simpa using (Except.ok.inj h) ▸ List.length_replicate n 0)
      (fun n bs h => by simpa using (Except.ok.inj h) ▸ List.length_replicate n 0)).1
      (by decide),
   (C1_generate_length envOk 100
      (fun n bs h => by simpa using (Except.ok.inj h) ▸ List.length_replicate n 0)
      (fun n bs h => by simpa using (Except.ok.inj h) ▸ List.length_replicate n 0)).2
      (by decide) (List.replicate 100 0) (by rfl)⟩

/-- C7: UnmountLUKSVolume attempts a normal unmount; exactly on its
failure it retries once with the lazy unmount; it succeeds when the first
attempt succeeds, succeeds when the lazy retry succeeds, and reports an
error only when both attempts fail. -/
theorem C7_unmount_retry (env : Env) (mp : String) :
    (env.umountN mp = .ok () → unmountLUKSVolume env mp = ([.umountNormal mp], .ok ())) ∧
    (∀ e, env.umountN mp = .error e → env.umountL mp = .ok () →
      unmountLUKSVolume env mp = ([.umountNormal mp, .umountLazy mp], .ok ())) ∧
    (∀ e e2, env.umountN mp = .error e → env.umountL mp = .error e2 →
      unmountLUKSVolume env mp =
        ([.umountNormal mp, .umountLazy mp],
          .error ("failed to unmount LUKS volume: " ++ e2))) := by
  refine ⟨?_, ?_, ?_⟩ <;> intros <;> simp [unmountLUKSVolume, *]

/-- C7 (witness): on a busy mount point the first attempt fails and the
lazy retry succeeds, and the call reports success with both attempts in
the trace. -/
theorem C7_unmount_retry_witness :
    unmountLUKSVolume envBusy "/mnt/data" =
      ([.umountNormal "/mnt/data", .umountLazy "/mnt/data"], .ok ()) :=
  (C7_unmount_retry envBusy "/mnt/data").2.1 "device is busy" rfl rfl

/-- C10: when the owning user or group is empty, MountLUKSVolume (with the
directory creation and the mount itself succeeding) returns the
user-and-group error, but only after the mount-point directory was created
and the filesystem was mounted: both events are already in the trace of
the failing call. -/
theorem C10_mount_validates_late (env : Env) (cfg : LUKS)
    (hug : cfg.user = "" ∨ cfg.group = "")
    (hmk : env.mkdirAll cfg.mountPoint = .ok ())
    (hmt : env.mountDev ("/dev/mapper/" ++ cfg.mapperName) cfg.mountPoint = .ok ()) :
    mountLUKSVolume env cfg =
      ([.mkdirAll cfg.mountPoint,
        .mountDev ("/dev/mapper/" ++ cfg.mapperName) cfg.mountPoint],
        .error "user and group must be specified") := by
  simp only [mountLUKSVolume, hmk, hmt]
  rw [if_pos hug]

/-- C10 (witness): a descriptor with an empty user, in the all-succeeding
environment. -/
theorem C10_mount_validates_late_witness :
    mountLUKSVolume envOk { cfgEx with user := "" } =
      ([.mkdirAll "/mnt/data", .mountDev "/dev/mapper/secure_volume" "/mnt/data"],
        .error "user and group must be specified") :=
  C10_mount_validates_late envOk { cfgEx with user := "" } (Or.inl rfl) rfl rfl

/-- C2 (counterexample): the claim fails on the code: with every external
operation succeeding, formatting with secret [1, 2, 3] writes those secret
bytes to the on-disk temporary file, so the secret is not handed over only
through a pipe and is written to an on-disk plaintext file. -/
theorem C2_counterexample :
    Event.fileWrite "/tmp/luks-password-123456" [1, 2, 3]
      ∈ (luksFormat envOk "/data/luks.img" [1, 2, 3]).1 := by
  decide

/-- C2 (amended): luksFormat never places the secret in the command-line
arguments — every container-format invocation in its trace uses exactly
the fixed flag list plus the temporary key-file name and the volume path,
an argument list built without the secret — but it does write the secret
to an on-disk temporary file, which it passes via --key-file and removes
after the invocation (the last event of every trace that created it). -/
theorem C2_format_secret_handling (env : Env) (fp : String) (pw : List Byte)
    (name : String) (hct : env.createTemp = .ok name) :
    (∀ args, Event.cryptFormat args ∈ (luksFormat env fp pw).1 →
      args = luksFormatArgs name fp) ∧
    Event.fileWrite name pw ∈ (luksFormat env fp pw).1 ∧
    (luksFormat env fp pw).1.getLast? = some (Event.fileRemove name) := by
  cases hw : env.fileWrite name pw with
  | error e => simp [luksFormat, hct, hw]
  | ok _ =>
    cases hcl : env.closeTemp with
    | error e => simp [luksFormat, hct, hw, hcl]
    | ok _ =>
      cases hcf : env.cryptFormat (luksFormatArgs name fp) with
      | error e =>
        simp only [luksFormat, hct, hw, hcl, hcf]
        refine ⟨?_, by simp, by simp⟩
        intro args ha
        simp only [List.mem_cons, List.not_mem_nil, or_false] at ha
        rcases ha with h | h | h | h <;> simp_all
      | ok _ =>
        simp only [luksFormat, hct, hw, hcl, hcf]
        refine ⟨?_, by simp, by simp⟩
        intro args ha
        simp only [List.mem_cons, List.not_mem_nil, or_false] at ha
        rcases ha with h | h | h | h <;> simp_all

/-- C2 (witness): the amended theorem at the all-succeeding environment
with secret [9, 9]: the secret bytes are written to the temporary file
and the format arguments are the fixed list naming that file. -/
theorem C2_format_secret_handling_witness :
    Event.fileWrite "/tmp/luks-password-123456" [9, 9]
      ∈ (luksFormat envOk "/data/luks.img" [9, 9]).1 ∧
    (luksFormat envOk "/data/luks.img" [9, 9]).1.getLast?
      = some (Event.fileRemove "/tmp/luks-password-123456") :=
  ⟨(C2_format_secret_handling envOk "/data/luks.img" [9, 9]
      "/tmp/luks-password-123456" rfl).2.1,
   (C2_format_secret_handling envOk "/data/luks.img" [9, 9]
      "/tmp/luks-password-123456" rfl).2.2⟩

/-- C3 (code evaluation at the failing input): for a hardware-escrowed
descriptor the crypttab entry written by AddPersistentMount is exactly the
four-field line ending at the keyscript path: it carries no escrow
arguments at all — in particular it does not mention the fixed NV index —
while the repository's own keyscript rejects any invocation that does not
receive exactly the two escrow arguments (NV index and size). -/
theorem C3_crypttab_has_no_escrow_args :
    crypttabEntry cfgEx "" =
      "secure_volume /data/luks.img none luks,keyscript=/usr/local/bin/tpm-luks-keyscript.sh\n" ∧
    stringContains (crypttabEntry cfgEx "") DefaultNVIndex = false ∧
    keyscriptArgCountOk [] = false := by
  refine ⟨by rfl, by decide, by decide⟩

/-- C5: AddPersistentMount fails with the mount-state error whenever the
live mount-state check reports the volume not mounted; when the check
reports it mounted and the external append and UUID operations succeed
(with the two entries each forming a single line), the call succeeds and
each artifact gains exactly one line. -/
theorem C5_addPersistentMount_guard_and_append (env : Env) (cfg : LUKS)
    (keyFile : String) (st : PState) :
    (isLUKSMounted env cfg = .ok false →
      addPersistentMount env cfg keyFile st =
        (st, .error "LUKS volume is not mounted")) ∧
    (isLUKSMounted env cfg = .ok true →
      env.crypttabAppend = .ok () → env.fstabAppend = .ok () →
      ∀ uuid, getFilesystemUUID env ("/dev/mapper/" ++ cfg.mapperName) = .ok uuid →
      (contentLines (crypttabEntry cfg keyFile)).length = 1 →
      (contentLines (fstabEntry uuid cfg)).length = 1 →
      (addPersistentMount env cfg keyFile st).2 = .ok () ∧
      (addPersistentMount env cfg keyFile st).1.fstab.length = st.fstab.length + 1 ∧
      (addPersistentMount env cfg keyFile st).1.crypttab.length = st.crypttab.length + 1) := by
  constructor
  · intro h
    simp [addPersistentMount, h]
  · intro h hca hfa uuid hu hc1 hf1
    simp [addPersistentMount, h, hca, hfa, hu, appendToFile, hc1, hf1]

/-- C5 (witness): in the concrete mounted environment the call succeeds
and each artifact grows by exactly one line; in the not-mounted variant it
fails with the mount-state error. -/
theorem C5_addPersistentMount_witness :
    (addPersistentMount envOk cfgEx "" ⟨[], []⟩).2 = .ok () ∧
    (addPersistentMount envOk cfgEx "" ⟨[], []⟩).1.fstab.length = 1 ∧
    addPersistentMount envNotMounted cfgEx "" ⟨[], []⟩ =
      (⟨[], []⟩, .error "LUKS volume is not mounted") :=
  ⟨((C5_addPersistentMount_guard_and_append envOk cfgEx "" ⟨[], []⟩).2
      (by rfl) rfl rfl "1234-abcd" (by rfl) (by decide) (by decide)).1,
   ((C5_addPersistentMount_guard_and_append envOk cfgEx "" ⟨[], []⟩).2
      (by rfl) rfl rfl "1234-abcd" (by rfl) (by decide) (by decide)).2.1,
   (C5_addPersistentMount_guard_and_append envNotMounted cfgEx "" ⟨[], []⟩).1 (by rfl)⟩

/-- Every unmount trace begins with the normal unmount attempt. -/
theorem umountNormal_mem_unmount_trace (env : Env) (mp : String) :
    Event.umountNormal mp ∈ (unmountLUKSVolume env mp).1 := by
  unfold unmountLUKSVolume
  cases env.umountN mp with
  | ok _ => simp
  | error e => cases env.umountL mp <;> simp

/-- C6: RemoveLUKSVolume always reports success, for every pattern of
external failures, and its trace attempts every step in order: the
unmount (itself containing the normal attempt), then closing the mapping,
removing the mount directory, removing the backing file, and — exactly
when hardware escrow is configured — removing the escrowed secret. -/
theorem C6_remove_best_effort (env : Env) (cfg : LUKS) :
    removeLUKSVolume env cfg =
      ((unmountLUKSVolume env cfg.mountPoint).1 ++
        [Event.cryptClose cfg.mapperName, Event.removeDirAll cfg.mountPoint,
          Event.removeFile cfg.volumePath] ++
        (if cfg.useTPM then [Event.tpmUndefine DefaultNVIndex] else []),
        .ok ()) ∧
    Event.umountNormal cfg.mountPoint ∈ (removeLUKSVolume env cfg).1 := by
  have hmem := umountNormal_mem_unmount_trace env cfg.mountPoint
  rcases hu : unmountLUKSVolume env cfg.mountPoint with ⟨t1, r1⟩
  rw [hu] at hmem
  cases htpm : cfg.useTPM <;>
    simp_all [removeLUKSVolume, removePasswordFromTPM, hu, htpm]

/-- Dropping the lines containing a token is idempotent. -/
theorem removeLineFromFile_idem (file : List String) (token : String) :
    removeLineFromFile (removeLineFromFile file token) token =
      removeLineFromFile file token := by
  apply List.filter_eq_self.mpr
  intro a ha
  exact (List.mem_filter.mp ha).2

/-- C8: RemovePersistentMount fails when the live mount-state check
reports the volume mounted; otherwise it succeeds, no line of the
resulting mount table contains the mount point, no line of the resulting
unlock table contains the mapper name, and running it again on the
resulting state returns that same state unchanged. -/
theorem C8_removePersistentMount_guard_and_idem (env : Env) (cfg : LUKS)
    (st : PState) :
    (isLUKSMounted env cfg = .ok true →
      removePersistentMount env cfg st =
        (st, .error "LUKS volume is mounted, please unmount first")) ∧
    (isLUKSMounted env cfg = .ok false →
      (removePersistentMount env cfg st).2 = .ok () ∧
      (∀ l ∈ (removePersistentMount env cfg st).1.fstab,
        stringContains l cfg.mountPoint = false) ∧
      (∀ l ∈ (removePersistentMount env cfg st).1.crypttab,
        stringContains l cfg.mapperName = false) ∧
      removePersistentMount env cfg (removePersistentMount env cfg st).1 =
        ((removePersistentMount env cfg st).1, .ok ())) := by
  constructor
  · intro h
    simp [removePersistentMount, h]
  · intro h
    refine ⟨by simp [removePersistentMount, h], ?_, ?_, ?_⟩
    · intro l hl
      simp only [removePersistentMount, h, if_false] at hl
      have := (List.mem_filter.mp hl).2
      simpa [removeLineFromFile] using this
    · intro l hl
      simp only [removePersistentMount, h, if_false] at hl
      have := (List.mem_filter.mp hl).2
      simpa [removeLineFromFile] using this
    · simp [removePersistentMount, h, removeLineFromFile_idem]

/-- C8 (witness): a state holding entries for this volume and for another
volume, in the not-mounted environment: the call succeeds and a second run
returns the resulting state unchanged. -/
theorem C8_removePersistentMount_witness :
    (removePersistentMount envNotMounted cfgEx
      ⟨["UUID=1 /mnt/data ext4 defaults 0 2", "UUID=2 /srv/other ext4 defaults 0 2"],
       ["secure_volume /data/luks.img none luks", "other /o.img /k luks"]⟩).2 = .ok () ∧
    removePersistentMount envNotMounted cfgEx
        (removePersistentMount envNotMounted cfgEx
          ⟨["UUID=1 /mnt/data ext4 defaults 0 2", "UUID=2 /srv/other ext4 defaults 0 2"],
           ["secure_volume /data/luks.img none luks", "other /o.img /k luks"]⟩).1 =
      ((removePersistentMount envNotMounted cfgEx
          ⟨["UUID=1 /mnt/data ext4 defaults 0 2", "UUID=2 /srv/other ext4 defaults 0 2"],
           ["secure_volume /data/luks.img none luks", "other /o.img /k luks"]⟩).1,
        .ok ()) :=
  ⟨((C8_removePersistentMount_guard_and_idem envNotMounted cfgEx
      ⟨["UUID=1 /mnt/data ext4 defaults 0 2", "UUID=2 /srv/other ext4 defaults 0 2"],
       ["secure_volume /data/luks.img none luks", "other /o.img /k luks"]⟩).2 (by rfl)).1,
   ((C8_removePersistentMount_guard_and_idem envNotMounted cfgEx
      ⟨["UUID=1 /mnt/data ext4 defaults 0 2", "UUID=2 /srv/other ext4 defaults 0 2"],
       ["secure_volume /data/luks.img none luks", "other /o.img /k luks"]⟩).2 (by rfl)).2.2.2⟩

/-- C9: line removal matches by substring: when the volume is not mounted,
every mount-table line whose text anywhere contains the configured mount
point is deleted by RemovePersistentMount, and every unlock-table line
whose text anywhere contains the mapper name is deleted — including
entries of unrelated volumes whose paths or names merely contain those
strings. -/
theorem C9_substring_matching (env : Env) (cfg : LUKS) (st : PState)
    (l : String) (hnm : isLUKSMounted env cfg = .ok false) :
    (l ∈ st.fstab → stringContains l cfg.mountPoint = true →
      l ∉ (removePersistentMount env cfg st).1.fstab) ∧
    (l ∈ st.crypttab → stringContains l cfg.mapperName = true →
      l ∉ (removePersistentMount env cfg st).1.crypttab) := by
  constructor <;>
  · intro _ hc hl
    simp only [removePersistentMount, hnm, if_false] at hl
    have := (List.mem_filter.mp hl).2
    simp [removeLineFromFile, hc] at this

/-- C9 (witness): the mount point is /mnt/data; the entry of the unrelated
volume mounted at /mnt/data2 contains it as a substring and is deleted. -/
theorem C9_substring_matching_witness :
    "UUID=9 /mnt/data2 ext4 defaults 0 2" ∉
      (removePersistentMount envNotMounted cfgEx
        ⟨["UUID=9 /mnt/data2 ext4 defaults 0 2"], []⟩).1.fstab :=
  (C9_substring_matching envNotMounted cfgEx
      ⟨["UUID=9 /mnt/data2 ext4 defaults 0 2"], []⟩
      "UUID=9 /mnt/data2 ext4 defaults 0 2" (by rfl)).1
    (by simp) (by decide)

/-- C4: in CreateLUKSVolume with hardware escrow requested, (i) in every
execution, for every pattern of external outcomes, any container-format
invocation in the trace is preceded by the TPM write of the secret, so a
format failure happens only after the secret is already escrowed; (ii)
the outcome of the pre-existing-entry removal is ignored: the whole call
behaves identically whatever tpm2_nvundefine returns; (iii) once the size
is in range and the sparse file is created, the first two actions are the
sparse-file creation and the removal of the entry at the fixed index. -/
theorem C4_escrow_before_format (env : Env) (fp : String) (pw : List Byte)
    (sizeMB : Int) :
    storePrecedesFormat pw (createLUKSVolume env fp pw sizeMB true).1 = true ∧
    (∀ f, createLUKSVolume { env with tpmUndefine := f } fp pw sizeMB true =
      createLUKSVolume env fp pw sizeMB true) ∧
    ((1 : Int) ≤ sizeMB → sizeMB ≤ 64 → env.createSparse fp sizeMB = .ok () →
      (createLUKSVolume env fp pw sizeMB true).1.take 2 =
        [Event.createSparse fp sizeMB, Event.tpmUndefine DefaultNVIndex]) := by
  refine ⟨?_, ?_, ?_⟩
  · by_cases hs : sizeMB < 1 ∨ sizeMB > 64
    · simp [createLUKSVolume, hs, storePrecedesFormat]
    · cases hcs : env.createSparse fp sizeMB with
      | error e => simp [createLUKSVolume, hs, hcs, storePrecedesFormat]
      | ok _ =>
        by_cases hlen : pw = [] ∨ 64 < pw.length
        · simp [createLUKSVolume, hs, hcs, removePasswordFromTPM,
            storePasswordInTPM, hlen, storePrecedesFormat]
        · cases hd : env.tpmDefine DefaultNVIndex pw.length with
          | error e =>
            simp [createLUKSVolume, hs, hcs, removePasswordFromTPM,
              storePasswordInTPM, hlen, hd, storePrecedesFormat]
          | ok _ =>
            cases hw : env.tpmWrite DefaultNVIndex with
            | error e =>
              simp [createLUKSVolume, hs, hcs, removePasswordFromTPM,
                storePasswordInTPM, hlen, hd, hw, storePrecedesFormat]
            | ok _ =>
              simp [createLUKSVolume, hs, hcs, removePasswordFromTPM,
                storePasswordInTPM, hlen, hd, hw, storePrecedesFormat]
  · intro f
    rfl
  · intro h1 h2 hcs
    have hs : ¬ (sizeMB < 1 ∨ sizeMB > 64) := by omega
    by_cases hlen : pw = [] ∨ 64 < pw.length
    · simp [createLUKSVolume, hs, hcs, removePasswordFromTPM,
        storePasswordInTPM, hlen]
    · cases hd : env.tpmDefine DefaultNVIndex pw.length with
      | error e =>
        simp [createLUKSVolume, hs, hcs, removePasswordFromTPM,
          storePasswordInTPM, hlen, hd]
      | ok _ =>
        cases hw : env.tpmWrite DefaultNVIndex with
        | error e =>
          simp [createLUKSVolume, hs, hcs, removePasswordFromTPM,
            storePasswordInTPM, hlen, hd, hw]
        | ok _ =>
          simp [createLUKSVolume, hs, hcs, removePasswordFromTPM,
            storePasswordInTPM, hlen, hd, hw]

/-- C4 (witness): the theorem at the all-succeeding environment with a
concrete secret and size: escrow precedes formatting and the first two
actions are the sparse-file creation and the index removal. -/
theorem C4_escrow_before_format_witness :
    storePrecedesFormat [1, 2, 3]
      (createLUKSVolume envOk "/data/luks.img" [1, 2, 3] 10 true).1 = true ∧
    (createLUKSVolume envOk "/data/luks.img" [1, 2, 3] 10 true).1.take 2 =
      [Event.createSparse "/data/luks.img" 10, Event.tpmUndefine DefaultNVIndex] :=
  ⟨(C4_escrow_before_format envOk "/data/luks.img" [1, 2, 3] 10).1,
   (C4_escrow_before_format envOk "/data/luks.img" [1, 2, 3] 10).2.2
      (by decide) (by decide) rfl⟩
